import Mathlib

/-!
Verification of the BYOM coordinate-transform engine
(`src/lib/transforms.js`) against its natural-language specification.

The JavaScript number arithmetic is idealised as real arithmetic (the
standard shallow embedding); `Math.sqrt`, `Math.cos`, `Math.sin` become
`Real.sqrt`, `Real.cos`, `Real.sin`, and `Math.atan2 y x` becomes
`Complex.arg ⟨x, y⟩`, which agrees with the JavaScript function on all
inputs expressible in ℝ (both return values in (-π, π], with atan2(0,0) = 0).
A JavaScript `throw` is embedded as `Except.error`; a normal return as
`Except.ok`.  Note that ℝ has no Infinity/NaN: where the JavaScript code
divides by zero the embedding yields Lean's conventional `x / 0 = 0`, so
statements about such code points are phrased only in terms of which
`Except` constructor is produced (the control flow, which the embedding
does model faithfully).
-/

namespace Byom

noncomputable section

/-- JavaScript Math.atan2(y, x), modelled as the argument of the complex
number x + y·i (range (-π, π], atan2 0 0 = 0). -/
def atan2 (y x : ℝ) : ℝ := Complex.arg ⟨x, y⟩

/-- One correspondence point, as in transforms.js:
{imageX, imageY, lon, lat}. -/
structure RefPoint where
  imageX : ℝ
  imageY : ℝ
  lon : ℝ
  lat : ℝ

/-- Result of computeSimilarityTransform: {scale, rotation, tx, ty}. -/
structure SimilarityParams where
  scale : ℝ
  rotation : ℝ
  tx : ℝ
  ty : ℝ

/-- Result of computeAffineTransform: {a, b, c, d, e, f}, encoding
lon = a·x + b·y + c and lat = d·x + e·y + f. -/
structure AffineParams where
  a : ℝ
  b : ℝ
  c : ℝ
  d : ℝ
  e : ℝ
  f : ℝ

/-- The error kinds the transform functions in transforms.js throw,
identified by their message strings. -/
inductive TransformError where
  | insufficientPoints
  | collinearPoints
  | singularTransform

/-- A fitted transform tagged with its kind, mirroring the
(transform, type) pairs {transform, type: 'similarity' | 'affine'}
produced by calculateTransform and dispatched on by the evaluators. -/
inductive TransformModel where
  | similarity : SimilarityParams → TransformModel
  | affine : AffineParams → TransformModel

/-- The degeneracy tolerance used by transforms.js (1e-10 in the source). -/
def tol : ℝ := 1 / 10 ^ 10

/-- Sum of a per-point quantity over a reference-point list; used to embed
the accumulation loop of computeAffineTransform. -/
def sumBy (pts : List RefPoint) (g : RefPoint → ℝ) : ℝ := (pts.map g).sum

/-- The determinant of the 3×3 normal-equations matrix, exactly as
computeAffineTransform (transforms.js lines 82-84) computes it. -/
def affDet (pts : List RefPoint) : ℝ :=
  let n : ℝ := pts.length
  let sum_x := sumBy pts (fun p => p.imageX)
  let sum_y := sumBy pts (fun p => p.imageY)
  let sum_x2 := sumBy pts (fun p => p.imageX * p.imageX)
  let sum_y2 := sumBy pts (fun p => p.imageY * p.imageY)
  let sum_xy := sumBy pts (fun p => p.imageX * p.imageY)
  n * (sum_x2 * sum_y2 - sum_xy * sum_xy)
    - sum_x * (sum_x * sum_y2 - sum_y * sum_xy)
    + sum_y * (sum_x * sum_xy - sum_y * sum_x2)

/-- computeSimilarityTransform (transforms.js lines 12-45).  The source's
guard `referencePoints.length < 2` (which throws
'Need at least 2 reference points') is the catch-all branch here; with two
or more points the first two are used.  Note the source performs no
degeneracy check: `scale = dist_geo / dist_img` is returned even when the
two image pixels coincide (dist_img = 0, Infinity/NaN in JavaScript). -/
def computeSimilarityTransform :
    List RefPoint → Except TransformError SimilarityParams
  | p1 :: p2 :: _ =>
    let dx_img := p2.imageX - p1.imageX
    let dy_img := p2.imageY - p1.imageY
    let dx_geo := p2.lon - p1.lon
    let dy_geo := p2.lat - p1.lat
    let dist_img := Real.sqrt (dx_img * dx_img + dy_img * dy_img)
    let dist_geo := Real.sqrt (dx_geo * dx_geo + dy_geo * dy_geo)
    let scale := dist_geo / dist_img
    let angle_img := atan2 dy_img dx_img
    let angle_geo := atan2 dy_geo dx_geo
    let rot := angle_geo - angle_img
    let cos_r := Real.cos rot
    let sin_r := Real.sin rot
    let tx := p1.lon - (scale * cos_r * p1.imageX - scale * sin_r * p1.imageY)
    let ty := p1.lat - (scale * sin_r * p1.imageX + scale * cos_r * p1.imageY)
    .ok ⟨scale, rot, tx, ty⟩
  | _ => .error .insufficientPoints

/-- computeAffineTransform (transforms.js lines 54-116), the
normal-equations solve, transcribed term for term — including the
source's cofactor expressions for b and e (lines 94-96 and 109-111) and
the recovery of the intercepts c and f from the column means (the source
also computes an unused value `c` on lines 98-100, shadowed by `c_val`;
it is omitted here as dead code).  Throws 'Need at least 3 reference
points for affine transform' below 3 points, and
'Points are collinear, cannot compute affine transform' when the
normal-equations determinant is below 1e-10 in magnitude. -/
def computeAffineTransform (referencePoints : List RefPoint) :
    Except TransformError AffineParams :=
  if referencePoints.length < 3 then .error .insufficientPoints
  else if |affDet referencePoints| < tol then .error .collinearPoints
  else
    let n : ℝ := referencePoints.length
    let sum_x := sumBy referencePoints (fun p => p.imageX)
    let sum_y := sumBy referencePoints (fun p => p.imageY)
    let sum_x2 := sumBy referencePoints (fun p => p.imageX * p.imageX)
    let sum_y2 := sumBy referencePoints (fun p => p.imageY * p.imageY)
    let sum_xy := sumBy referencePoints (fun p => p.imageX * p.imageY)
    let sum_lon := sumBy referencePoints (fun p => p.lon)
    let sum_lat := sumBy referencePoints (fun p => p.lat)
    let sum_x_lon := sumBy referencePoints (fun p => p.imageX * p.lon)
    let sum_y_lon := sumBy referencePoints (fun p => p.imageY * p.lon)
    let sum_x_lat := sumBy referencePoints (fun p => p.imageX * p.lat)
    let sum_y_lat := sumBy referencePoints (fun p => p.imageY * p.lat)
    let det := affDet referencePoints
    let a := (n * (sum_x_lon * sum_y2 - sum_y_lon * sum_xy)
            - sum_x * (sum_lon * sum_y2 - sum_y * sum_y_lon)
            + sum_y * (sum_lon * sum_xy - sum_y * sum_x_lon)) / det
    let b := (n * (sum_x2 * sum_y_lon - sum_xy * sum_x_lon)
            - sum_x * (sum_x * sum_y_lon - sum_y * sum_x_lon)
            + sum_y * (sum_x * sum_lon - sum_x2 * sum_lon)) / det
    let c_val := (sum_lon - a * sum_x - b * sum_y) / n
    let d := (n * (sum_x_lat * sum_y2 - sum_y_lat * sum_xy)
            - sum_x * (sum_lat * sum_y2 - sum_y * sum_y_lat)
            + sum_y * (sum_lat * sum_xy - sum_y * sum_x_lat)) / det
    let e := (n * (sum_x2 * sum_y_lat - sum_xy * sum_x_lat)
            - sum_x * (sum_x * sum_y_lat - sum_y * sum_x_lat)
            + sum_y * (sum_x * sum_lat - sum_x2 * sum_lat)) / det
    let f_val := (sum_lat - d * sum_x - e * sum_y) / n
    .ok ⟨a, b, c_val, d, e, f_val⟩

/-- imageToGeo (transforms.js lines 126-141): forward evaluation,
dispatching on the model tag.  Total for the two known tags (the
'Unknown transform type' branch is unrepresentable for a tagged
TransformModel). -/
def imageToGeo (imageX imageY : ℝ) : TransformModel → ℝ × ℝ
  | .similarity t =>
    let cos_r := Real.cos t.rotation
    let sin_r := Real.sin t.rotation
    (t.scale * cos_r * imageX - t.scale * sin_r * imageY + t.tx,
     t.scale * sin_r * imageX + t.scale * cos_r * imageY + t.ty)
  | .affine t =>
    (t.a * imageX + t.b * imageY + t.c,
     t.d * imageX + t.e * imageY + t.f)

/-- geoToImage (transforms.js lines 151-179): inverse evaluation.  The
affine branch throws 'Transform is singular' when |a·e - b·d| < 1e-10;
the similarity branch performs no check at all and divides by scale
unconditionally (lines 152-162 of the source contain no guard). -/
def geoToImage (lon lat : ℝ) : TransformModel → Except TransformError (ℝ × ℝ)
  | .similarity t =>
    let cos_r := Real.cos t.rotation
    let sin_r := Real.sin t.rotation
    let lon_shifted := lon - t.tx
    let lat_shifted := lat - t.ty
    .ok ((cos_r * lon_shifted + sin_r * lat_shifted) / t.scale,
         (-sin_r * lon_shifted + cos_r * lat_shifted) / t.scale)
  | .affine t =>
    let det := t.a * t.e - t.b * t.d
    if |det| < tol then .error .singularTransform
    else
      let lon_shifted := lon - t.c
      let lat_shifted := lat - t.f
      .ok ((t.e * lon_shifted - t.b * lat_shifted) / det,
           (-t.d * lon_shifted + t.a * lat_shifted) / det)

/-- calculateTransform (transforms.js lines 186-202): model selection.
A missing (null/undefined) list is the `none` argument; a thrown fitter
error propagates (Except.map). -/
def calculateTransform :
    Option (List RefPoint) → Except TransformError (Option TransformModel)
  | none => .ok none
  | some referencePoints =>
    if referencePoints.length < 2 then .ok none
    else if referencePoints.length = 2 then
      (computeSimilarityTransform referencePoints).map
        (fun t => some (.similarity t))
    else
      (computeAffineTransform referencePoints).map
        (fun t => some (.affine t))

/-- The condition under which the inverse evaluator is defined, as in the
round-trip property of the spec: nonzero scale for a similarity model,
determinant at least the 1e-10 tolerance for an affine model. -/
def invertible : TransformModel → Prop
  | .similarity t => t.scale ≠ 0
  | .affine t => tol ≤ |t.a * t.e - t.b * t.d|

/-- Modelled from the spec: the affine fitter of the alternative
implementation (src/unnamed/part_001) delegates to the transformation
-matrix library's fromTriangles on the first three points; that library
function is not part of this repository's sources, and per its documented
behaviour it returns the unique affine map carrying the first triangle's
vertices onto the second's, failing when the source triangle is
degenerate.  Cramer's rule on the exact 3-point interpolation system
[x_i, y_i, 1]·[a, b, c]ᵀ = lon_i (and likewise for lat) gives that map
in closed form; dd is twice the signed area of the image triangle. -/
def computeAffineTransformTri :
    List RefPoint → Except TransformError AffineParams
  | p1 :: p2 :: p3 :: _ =>
    let dd := p1.imageX * (p2.imageY - p3.imageY)
            + p2.imageX * (p3.imageY - p1.imageY)
            + p3.imageX * (p1.imageY - p2.imageY)
    if dd = 0 then .error .collinearPoints
    else
      let a := (p1.lon * (p2.imageY - p3.imageY)
              + p2.lon * (p3.imageY - p1.imageY)
              + p3.lon * (p1.imageY - p2.imageY)) / dd
      let b := (p1.lon * (p3.imageX - p2.imageX)
              + p2.lon * (p1.imageX - p3.imageX)
              + p3.lon * (p2.imageX - p1.imageX)) / dd
      let c := (p1.lon * (p2.imageX * p3.imageY - p3.imageX * p2.imageY)
              + p2.lon * (p3.imageX * p1.imageY - p1.imageX * p3.imageY)
              + p3.lon * (p1.imageX * p2.imageY - p2.imageX * p1.imageY)) / dd
      let d := (p1.lat * (p2.imageY - p3.imageY)
              + p2.lat * (p3.imageY - p1.imageY)
              + p3.lat * (p1.imageY - p2.imageY)) / dd
      let e := (p1.lat * (p3.imageX - p2.imageX)
              + p2.lat * (p1.imageX - p3.imageX)
              + p3.lat * (p2.imageX - p1.imageX)) / dd
      let f := (p1.lat * (p2.imageX * p3.imageY - p3.imageX * p2.imageY)
              + p2.lat * (p3.imageX * p1.imageY - p1.imageX * p3.imageY)
              + p3.lat * (p1.imageX * p2.imageY - p2.imageX * p1.imageY)) / dd
      .ok ⟨a, b, c, d, e, f⟩
  | _ => .error .insufficientPoints

/-- The three correspondence points of the spec's affine scenario B:
(0,0)→(10,20), (1,0)→(11,20), (0,1)→(10,21). -/
def scenarioBpts : List RefPoint :=
  [⟨0, 0, 10, 20⟩, ⟨1, 0, 11, 20⟩, ⟨0, 1, 10, 21⟩]

/-- The three exactly collinear points (0,0)→(0,0), (1,0)→(1,0),
(2,0)→(2,0) named by the spec's degenerate-detection property. -/
def collinearPts : List RefPoint :=
  [⟨0, 0, 0, 0⟩, ⟨1, 0, 1, 0⟩, ⟨2, 0, 2, 0⟩]

/-- The two correspondence points of the spec's similarity scenario A:
(0,0)→(0,0) and (100,0)→(0,1). -/
def scenarioApts : List RefPoint :=
  [⟨0, 0, 0, 0⟩, ⟨100, 0, 0, 1⟩]

/-- C2: round-trip law — for every model of either kind whose inverse is
defined (similarity with nonzero scale; affine with |a·e - b·d| at least
1e-10) and every pixel, geoToImage applied to imageToGeo of that pixel
returns exactly that pixel: geoToImage is the algebraic inverse of
imageToGeo for the same model, independently of how the model was
fitted. -/
theorem c2_round_trip (M : TransformModel) (x y : ℝ) (h : invertible M) :
    geoToImage (imageToGeo x y M).1 (imageToGeo x y M).2 M =
      Except.ok (x, y) := by
  cases M with
  | similarity t =>
    simp only [invertible] at h
    simp only [imageToGeo, geoToImage, Except.ok.injEq, Prod.mk.injEq]
    have hcs := Real.sin_sq_add_cos_sq t.rotation
    constructor
    · field_simp
      linear_combination (t.scale * x) * hcs
    · field_simp
      linear_combination (t.scale * y) * hcs
  | affine t =>
    simp only [invertible] at h
    have hlt : ¬ |t.a * t.e - t.b * t.d| < tol := not_lt.mpr h
    have hne : t.a * t.e - t.b * t.d ≠ 0 := by
      intro h0
      rw [h0, abs_zero] at h
      have : (0:ℝ) < tol := by norm_num [tol]
      linarith
    simp only [imageToGeo, geoToImage, if_neg hlt, Except.ok.injEq,
      Prod.mk.injEq]
    constructor
    · field_simp
      ring
    · field_simp
      ring

/-- Closed instance of the round-trip law: the identity affine model and
the pixel (2, 3). -/
theorem c2_round_trip_witness :
    invertible (.affine ⟨1, 0, 0, 0, 1, 0⟩) ∧
      geoToImage (imageToGeo 2 3 (.affine ⟨1, 0, 0, 0, 1, 0⟩)).1
        (imageToGeo 2 3 (.affine ⟨1, 0, 0, 0, 1, 0⟩)).2
        (.affine ⟨1, 0, 0, 0, 1, 0⟩) = Except.ok (2, 3) :=
  ⟨by norm_num [invertible, tol],
   c2_round_trip (.affine ⟨1, 0, 0, 0, 1, 0⟩) 2 3
     (by norm_num [invertible, tol])⟩

/-- C4: for every point list of 3 or more points whose normal-equations
determinant has magnitude below 1e-10, computeAffineTransform fails with
the CollinearPoints error and produces no model. -/
theorem c4_collinear_detection (pts : List RefPoint) (h3 : 3 ≤ pts.length)
    (hdet : |affDet pts| < tol) :
    computeAffineTransform pts = Except.error .collinearPoints := by
  unfold computeAffineTransform
  rw [if_neg (by omega), if_pos hdet]

/-- Closed instance of collinear detection at the spec's exactly collinear
set (0,0)→(0,0), (1,0)→(1,0), (2,0)→(2,0). -/
theorem c4_collinear_detection_witness :
    3 ≤ collinearPts.length ∧ |affDet collinearPts| < tol ∧
      computeAffineTransform collinearPts = Except.error .collinearPoints := by
  have h3 : 3 ≤ collinearPts.length := by norm_num [collinearPts]
  have hdet : |affDet collinearPts| < tol := by
    norm_num [affDet, sumBy, collinearPts, tol]
  exact ⟨h3, hdet, c4_collinear_detection collinearPts h3 hdet⟩

/-- C5: for every affine model whose linear-part determinant a·e - b·d has
magnitude below 1e-10, geoToImage fails with the SingularTransform error
for every geographic input, without dividing by the near-zero
determinant. -/
theorem c5_singular_inverse (t : AffineParams) (lon lat : ℝ)
    (h : |t.a * t.e - t.b * t.d| < tol) :
    geoToImage lon lat (.affine t) = Except.error .singularTransform := by
  simp only [geoToImage, if_pos h]

/-- Closed instance of the singular inverse at the spec's model
a=1, b=2, d=2, e=4 (rows proportional, det = 0) and geo input (3, 7). -/
theorem c5_singular_inverse_witness :
    |(1:ℝ) * 4 - 2 * 2| < tol ∧
      geoToImage 3 7 (.affine ⟨1, 2, 0, 2, 4, 0⟩) =
        Except.error .singularTransform :=
  ⟨by norm_num [tol],
   c5_singular_inverse ⟨1, 2, 0, 2, 4, 0⟩ 3 7 (by norm_num [tol])⟩

/-- C6 (refuting the claimed behaviour): computeSimilarityTransform
performs no degeneracy check at all — for every list of at least two
points, coincident image pixels included, it returns a model rather than
a degeneracy error.  (In JavaScript the coincident-pixel case makes
scale = dist_geo / 0 = Infinity, silently returned inside the model.) -/
theorem c6_similarity_fitter_never_degenerate (pts : List RefPoint)
    (h : 2 ≤ pts.length) :
    ∃ m, computeSimilarityTransform pts = Except.ok m := by
  cases pts with
  | nil => norm_num at h
  | cons p1 rest =>
    cases rest with
    | nil => norm_num at h
    | cons p2 rest2 => exact ⟨_, rfl⟩

/-- Closed instance: the two points (0,0)→(0,0) and (0,0)→(1,0) coincide
in pixel space (image displacement magnitude 0), yet the fitter returns a
model, not an error. -/
theorem c6_similarity_fitter_never_degenerate_witness :
    2 ≤ ([⟨0, 0, 0, 0⟩, ⟨0, 0, 1, 0⟩] : List RefPoint).length ∧
      ∃ m, computeSimilarityTransform [⟨0, 0, 0, 0⟩, ⟨0, 0, 1, 0⟩] =
        Except.ok m :=
  ⟨by norm_num,
   c6_similarity_fitter_never_degenerate [⟨0, 0, 0, 0⟩, ⟨0, 0, 1, 0⟩]
     (by norm_num)⟩

/-- C7 (refuting the claimed behaviour): the similarity branch of
geoToImage contains no scale check — it returns ok for every similarity
model and every geographic input, including models with scale = 0, and
never produces the SingularTransform error.  (In JavaScript the scale = 0
case silently returns non-finite coordinates from the division.) -/
theorem c7_similarity_inverse_never_fails (t : SimilarityParams)
    (lon lat : ℝ) :
    ∃ p, geoToImage lon lat (.similarity t) = Except.ok p :=
  ⟨_, rfl⟩

/-- Evaluation of the normal-equations fitter at the scenario-B points:
the coefficients it actually produces.  (The genuine least-squares
solution for these points is a=1, b=0, c=10, d=0, e=1, f=20, which
interpolates them exactly; the source's cofactor expressions for b and e
— transforms.js lines 94-96 and 109-111 — are incorrect, so it returns
b = 31 and e = 62 instead.) -/
theorem affineFit_scenarioB :
    computeAffineTransform scenarioBpts =
      Except.ok ⟨1, 31, -(1/3), 0, 62, -(1/3)⟩ := by
  norm_num [computeAffineTransform, affDet, sumBy, scenarioBpts, tol,
    AffineParams.mk.injEq]

/-- C1 (refuting the claimed behaviour, which is what a correct
least-squares solve would produce): fitting from the three points
(0,0)→(10,20), (1,0)→(11,20), (0,1)→(10,21) yields
a=1, b=31, c=-1/3, d=0, e=62, f=-1/3 — not the b=0, c=10, e=1, f=20 of
the exact (least-squares) solution — and forward evaluation of pixel
(5,5) under the fitted model yields (479/3, 929/3) ≈ (159.67, 309.67)
rather than (15, 25). -/
theorem c1_affine_scenario :
    computeAffineTransform scenarioBpts =
      Except.ok ⟨1, 31, -(1/3), 0, 62, -(1/3)⟩ ∧
    imageToGeo 5 5 (.affine ⟨1, 31, -(1/3), 0, 62, -(1/3)⟩) =
      (479/3, 929/3) := by
  refine ⟨affineFit_scenarioB, ?_⟩
  simp only [imageToGeo, Prod.mk.injEq]
  norm_num

/-- C3 (refuting the claimed behaviour for the affine path): the model
fitted from the scenario-B points does not interpolate its own
correspondence points — the third point's pixel (0,1) is mapped to
(92/3, 185/3) ≈ (30.67, 61.67), far from its geo coordinate (10, 21). -/
theorem c3_affine_interpolation_fails :
    computeAffineTransform scenarioBpts =
      Except.ok ⟨1, 31, -(1/3), 0, 62, -(1/3)⟩ ∧
    imageToGeo 0 1 (.affine ⟨1, 31, -(1/3), 0, 62, -(1/3)⟩) =
      (92/3, 185/3) := by
  refine ⟨affineFit_scenarioB, ?_⟩
  simp only [imageToGeo, Prod.mk.injEq]
  norm_num

/-- C10 (refuting the claimed agreement): on the three non-collinear
scenario-B points, on which both fitters succeed, the triangle-based
fitter returns the exact interpolating coefficients
a=1, b=0, c=10, d=0, e=1, f=20 while the normal-equations fitter returns
a=1, b=31, c=-1/3, d=0, e=62, f=-1/3; the b coefficients alone differ
by 31. -/
theorem c10_affine_fitters_disagree :
    computeAffineTransformTri scenarioBpts =
      Except.ok ⟨1, 0, 10, 0, 1, 20⟩ ∧
    computeAffineTransform scenarioBpts =
      Except.ok ⟨1, 31, -(1/3), 0, 62, -(1/3)⟩ := by
  refine ⟨?_, affineFit_scenarioB⟩
  norm_num [computeAffineTransformTri, scenarioBpts, AffineParams.mk.injEq]

/-- C8 counterexample: a list of three exactly collinear points on which
calculateTransform does not return an affine-tagged model at all — the
CollinearPoints error from the affine fitter propagates instead. -/
theorem c8_counterexample :
    calculateTransform (some collinearPts) =
      Except.error .collinearPoints := by
  have hdet : |affDet collinearPts| < tol := by
    norm_num [affDet, sumBy, collinearPts, tol]
  have hfit : computeAffineTransform collinearPts =
      Except.error .collinearPoints := by
    unfold computeAffineTransform
    rw [if_neg (by norm_num [collinearPts]), if_pos hdet]
  simp only [calculateTransform]
  rw [if_neg (by norm_num [collinearPts]), if_neg (by norm_num [collinearPts]),
    hfit]
  rfl

/-- C8 as amended: calculateTransform returns none for a missing list and
for every list with fewer than 2 points; for every list of exactly 2
points it returns a similarity-tagged model fitted from those two points;
and for every list of 3 or more points it delegates to the affine fitter
over all supplied points, returning an affine-tagged model whenever the
normal-equations determinant passes the 1e-10 check (for collinear sets
the CollinearPoints error propagates and no model is returned). -/
theorem c8_model_selection :
    calculateTransform none = Except.ok none ∧
    (∀ pts : List RefPoint, pts.length < 2 →
      calculateTransform (some pts) = Except.ok none) ∧
    (∀ pts : List RefPoint, pts.length = 2 →
      ∃ m, computeSimilarityTransform pts = Except.ok m ∧
        calculateTransform (some pts) = Except.ok (some (.similarity m))) ∧
    (∀ pts : List RefPoint, 3 ≤ pts.length → tol ≤ |affDet pts| →
      ∃ m, computeAffineTransform pts = Except.ok m ∧
        calculateTransform (some pts) = Except.ok (some (.affine m))) := by
  refine ⟨rfl, ?_, ?_, ?_⟩
  · intro pts hlt
    simp only [calculateTransform, if_pos hlt]
  · intro pts hlen
    obtain ⟨m, hm⟩ : ∃ m, computeSimilarityTransform pts = Except.ok m := by
      cases pts with
      | nil => norm_num at hlen
      | cons p1 rest =>
        cases rest with
        | nil => norm_num at hlen
        | cons p2 rest2 => exact ⟨_, rfl⟩
    refine ⟨m, hm, ?_⟩
    simp only [calculateTransform]
    rw [if_neg (by omega), if_pos hlen, hm]
    rfl
  · intro pts h3 hdet
    obtain ⟨m, hm⟩ : ∃ m, computeAffineTransform pts = Except.ok m := by
      unfold computeAffineTransform
      rw [if_neg (by omega), if_neg (not_lt.mpr hdet)]
      exact ⟨_, rfl⟩
    refine ⟨m, hm, ?_⟩
    simp only [calculateTransform]
    rw [if_neg (by omega), if_neg (by omega), hm]
    rfl

/-- Closed instance of the model-selection boundary: a singleton list
yields none, the scenario-A pair yields a similarity-tagged model, and the
scenario-B triple (determinant 1) yields an affine-tagged model. -/
theorem c8_model_selection_witness :
    calculateTransform (some [⟨0, 0, 0, 0⟩]) = Except.ok none ∧
    (∃ m, computeSimilarityTransform scenarioApts = Except.ok m ∧
      calculateTransform (some scenarioApts) =
        Except.ok (some (.similarity m))) ∧
    (∃ m, computeAffineTransform scenarioBpts = Except.ok m ∧
      calculateTransform (some scenarioBpts) =
        Except.ok (some (.affine m))) :=
  ⟨c8_model_selection.2.1 [⟨0, 0, 0, 0⟩] (by norm_num),
   c8_model_selection.2.2.1 scenarioApts (by norm_num [scenarioApts]),
   c8_model_selection.2.2.2 scenarioBpts (by norm_num [scenarioBpts])
     (by norm_num [affDet, sumBy, scenarioBpts, tol])⟩

/-- atan2 of a point on the positive x-axis is 0. -/
theorem atan2_zero_pos (x : ℝ) (hx : 0 < x) : atan2 0 x = 0 :=
  Complex.arg_eq_zero_iff.mpr ⟨le_of_lt hx, rfl⟩

/-- atan2 of a point on the positive y-axis is π/2. -/
theorem atan2_pos_zero (y : ℝ) (hy : 0 < y) : atan2 y 0 = Real.pi / 2 :=
  Complex.arg_eq_pi_div_two_iff.mpr ⟨rfl, hy⟩

/-- C9: fitting from the two scenario-A points (0,0)→(0,0) and
(100,0)→(0,1) yields scale = 1/100 and rotation = π/2 with zero
translation, and forward evaluation of pixel (50, 0) under that model
yields exactly (0, 1/2). -/
theorem c9_similarity_scenario :
    computeSimilarityTransform scenarioApts =
      Except.ok ⟨1/100, Real.pi/2, 0, 0⟩ ∧
    imageToGeo 50 0 (.similarity ⟨1/100, Real.pi/2, 0, 0⟩) = (0, 1/2) := by
  constructor
  · have hs1 : Real.sqrt 10000 = 100 := by
      rw [show (10000:ℝ) = 100 ^ 2 by norm_num]
      exact Real.sqrt_sq (by norm_num)
    have ha1 : atan2 0 100 = 0 := atan2_zero_pos 100 (by norm_num)
    have ha2 : atan2 1 0 = Real.pi / 2 := atan2_pos_zero 1 (by norm_num)
    norm_num [scenarioApts, computeSimilarityTransform,
      SimilarityParams.mk.injEq, hs1, ha1, ha2, Real.sqrt_one]
  · norm_num [imageToGeo, Real.cos_pi_div_two, Real.sin_pi_div_two,
      Prod.mk.injEq]

end

end Byom
